import Mathlib

/-!
Verification of the tracee-db debugger core against its specification.

The definitions below are a shallow embedding of the Rust sources:
machine words (`i64`, `usize`, `u64`) are `Nat` values below `2 ^ 64`,
target memory is a total function `Nat → Nat` from word-aligned addresses
to words, fallible operations return `Except`, and an operation that can
panic or abort the process is modelled with an outer `Option` whose
`none` stands for the abort.
-/

/-- Byte `i` (little-endian, byte 0 is the low byte) of a 64-bit word. -/
def byteOf (w i : Nat) : Nat := w / 2 ^ (8 * i) % 256

/-- The patched word computed by `BrkptRecord::activate` in
`src/traceedb/breakpoint.rs`: `(original_insn & 0xFFFFFF00) | 0xCC`.
The mask is the 32-bit literal that appears in the source. -/
def patchWord (w : Nat) : Nat := (w &&& 0xFFFFFF00) ||| 0xCC

/-- Pointwise update of target memory, the effect of a one-word
`PTRACE_POKETEXT`. -/
def memWrite (mem : Nat → Nat) (a v : Nat) : Nat → Nat :=
  fun x => if x = a then v else mem x

/-- `BrkptRecord` from `src/traceedb/breakpoint.rs`:
`{ pid, pc_addr, original_insn }`. -/
structure BrkptRecord where
  pid : Nat
  pcAddr : Nat
  originalInsn : Nat
deriving DecidableEq

/-- `BrkptRecord::new`: peeks the current word at `pc_addr` and stores it
as `original_insn`. -/
def brkptNew (pid : Nat) (mem : Nat → Nat) (pcAddr : Nat) : BrkptRecord :=
  { pid := pid, pcAddr := pcAddr, originalInsn := mem pcAddr }

/-- `BrkptRecord::activate`: pokes the patched word back at `pc_addr`. -/
def activate (r : BrkptRecord) (mem : Nat → Nat) : Nat → Nat :=
  memWrite mem r.pcAddr (patchWord r.originalInsn)

/-- `BrkptRecord::recover_from_trap` is `todo!()` in the source: calling it
aborts the process, modelled as `none`. -/
def recoverFromTrap (_r : BrkptRecord) : Option Unit := none

/-- The breakpoint record of `src/traceedb/function.rs` (no pid field):
`{ pc_addr, original_insn }`. -/
structure FnBrkptRecord where
  pcAddr : Nat
  originalInsn : Nat
deriving DecidableEq

/-- Lookup in the `HashMap<u64, BrkptRecord>` breakpoint table, modelled as
an association list keyed by address. Lookups are total and never fail. -/
def lookupBrkpt (tbl : List (Nat × FnBrkptRecord)) (k : Nat) :
    Option FnBrkptRecord :=
  (tbl.find? (fun p => p.1 == k)).map (fun p => p.2)

/-- The stop-handler correction of `TraceeDb::run_debugger` in
`src/traceedb/function.rs` lines 84-94: it looks up `regs.rip` itself in
the table; on a hit it pokes `original_insn` back at the record's
`pc_addr` and decrements `rip` by one; on a miss it changes nothing.
Returns the resulting `(rip, memory)` pair. -/
def stopCorrect (tbl : List (Nat × FnBrkptRecord)) (rip : Nat)
    (mem : Nat → Nat) : Nat × (Nat → Nat) :=
  match lookupBrkpt tbl rip with
  | some bp => (rip - 1, memWrite mem bp.pcAddr bp.originalInsn)
  | none => (rip, mem)

/-- `poke_text` from `src/traceedb/function.rs` lines 205-213: it issues
the kernel request and discards the kernel's result, returning `Ok(())`
unconditionally. The argument is the kernel's outcome (`Except e ()` with
`e` the errno on failure). -/
def pokeTextFn (_kernelResult : Except Nat Unit) : Except String Unit :=
  Except.ok ()

/-- `poke_text` from `src/traceedb/breakpoint.rs` lines 43-52: it checks
the kernel's result via `Errno::result` and surfaces failure as an error
message. -/
def pokeTextBp (kernelResult : Except Nat Unit) : Except String Unit :=
  match kernelResult with
  | Except.ok _ => Except.ok ()
  | Except.error _ => Except.error "Failed to send PTRACE_POKETEXT message!"

/-- The session state owned by `TraceeDbg` (`src/traceedb/dbg.rs`): the
breakpoint table plus the target's memory. -/
structure Session where
  breakpoints : List (Nat × BrkptRecord)
  mem : Nat → Nat

/-- `TraceeBuilder::build` (`src/traceedb/dbg.rs` lines 273-282): the
breakpoint table starts out empty. -/
def buildSession (mem : Nat → Nat) : Session :=
  { breakpoints := [], mem := mem }

/-- `TargetStat` from `src/traceedb/command.rs` lines 14-18. It has no
variant carrying a breakpoint record. -/
inductive TargetStat
  | awaitingCommand
  | running
  | killed
deriving DecidableEq

/-- `Breakpoint::execute` from `src/traceedb/command.rs` lines 182-187:
it activates the record (patching target memory) and returns
`AwaitingCommand`; it never touches the session's breakpoint table. -/
def executeBreakpoint (s : Session) (r : BrkptRecord) :
    Session × TargetStat :=
  ({ breakpoints := s.breakpoints, mem := activate r s.mem },
   TargetStat.awaitingCommand)

/-- Setting a breakpoint at `a`, as the `"b"` command path does it:
`BrkptRecord::new` (peeking current memory) followed by
`Breakpoint::execute` (activation). Returns the new session and the record
that was created. -/
def setBrkptAt (s : Session) (pid a : Nat) : Session × BrkptRecord :=
  let r := brkptNew pid s.mem a
  ((executeBreakpoint s r).1, r)

/-- One row of a compilation unit's line-number program, as consumed by
`src_line_to_addr`: an optional line number and an address. -/
structure LineRow where
  line : Option Nat
  address : Nat
deriving DecidableEq

/-- The decoded view of one compilation unit as `src_line_to_addr`
(`src/traceedb/symbol.rs`) consumes it: the top DIE's optional
`DW_AT_comp_dir` (0x1b) and `DW_AT_name` (0x03) attributes, and the
optional line-number program. -/
structure CompUnit where
  compDir : Option String
  name : Option String
  lineProgram : Option (List LineRow)
deriving DecidableEq

/-- Scan line-table rows in file order for the first row whose line number
is exactly `l`; return its address. Rows without a line number are
skipped, as in the source's `row.line().map(u64::from)` filter. -/
def rowsFind (rows : List LineRow) (l : Nat) : Option Nat :=
  (rows.find? (fun r => r.line == some l)).map (fun r => r.address)

/-- The error the source returns when resolution finds nothing:
`gimli::Error::InvalidAddressRange`. -/
inductive ResolveErr
  | invalidAddressRange
deriving DecidableEq

/-- `src_line_to_addr` from `src/traceedb/symbol.rs` lines 27-66. Units
are scanned in order; a unit is considered only when both the comp-dir
and name attributes are present and the name equals `filename` exactly.
For a considered unit the source calls `unit.line_program.unwrap()`:
a missing line program aborts the process, modelled as `none`. If the
considered unit has no row matching `lineNum`, scanning continues with
the remaining units. When no unit yields a row the source returns
`Err(InvalidAddressRange)`. -/
def srcLineToAddr : List CompUnit → String → Nat →
    Option (Except ResolveErr Nat)
  | [], _, _ => some (Except.error ResolveErr.invalidAddressRange)
  | u :: rest, f, l =>
    if u.compDir.isSome ∧ u.name = some f then
      match u.lineProgram with
      | none => none
      | some rows =>
        match rowsFind rows l with
        | some a => some (Except.ok a)
        | none => srcLineToAddr rest f l
    else srcLineToAddr rest f l

/-- Modelled from the spec wording of `resolve` (spec section 4.3): scan
compilation units for one whose recorded source name equals `filename`
exactly, then scan that unit's rows for the first row whose line number
equals `line` exactly; `NotFound` if no unit matches or no row matches.
This follows the claim's words, for comparison with `srcLineToAddr`. -/
def resolveSpecWords (units : List CompUnit) (f : String) (l : Nat) :
    Except ResolveErr Nat :=
  match units.find? (fun u => u.name == some f) with
  | none => Except.error ResolveErr.invalidAddressRange
  | some u =>
    match rowsFind (u.lineProgram.getD []) l with
    | some a => Except.ok a
    | none => Except.error ResolveErr.invalidAddressRange

/-- The amended resolution behaviour: scan all units in order, skip units
missing the comp-dir or name attribute, and for each unit whose name
equals `filename` exactly scan its rows; continue with later units when a
matching unit has no matching row. -/
def resolveAmended : List CompUnit → String → Nat → Except ResolveErr Nat
  | [], _, _ => Except.error ResolveErr.invalidAddressRange
  | u :: rest, f, l =>
    if u.compDir.isSome ∧ u.name = some f then
      match rowsFind (u.lineProgram.getD []) l with
      | some a => Except.ok a
      | none => resolveAmended rest f l
    else resolveAmended rest f l

/-- Helper for `tokenize`: split a character list on whitespace, dropping
empty fragments, accumulating the current word reversed. -/
def wordsAux : List Char → List Char → List String
  | [], [] => []
  | [], cur => [String.mk cur.reverse]
  | c :: cs, cur =>
    if c.isWhitespace then
      match cur with
      | [] => wordsAux cs []
      | _ => String.mk cur.reverse :: wordsAux cs []
    else wordsAux cs (c :: cur)

/-- Rust's `str::split_whitespace`: whitespace-delimited tokens, empties
skipped. -/
def tokenize (s : String) : List String := wordsAux s.data []

/-- Rust's `str::split(':')`: splits on every colon, keeping empty
fragments. -/
def splitColon : List Char → List Char → List String
  | [], cur => [String.mk cur.reverse]
  | c :: cs, cur =>
    if c = ':' then String.mk cur.reverse :: splitColon cs []
    else splitColon cs (c :: cur)

/-- Rust's `char::to_digit(radix)`: the digit value of `c` when it is
below `radix`. -/
def digitValRadix? (radix : Nat) (c : Char) : Option Nat :=
  let v :=
    if '0' ≤ c ∧ c ≤ '9' then some (c.toNat - '0'.toNat)
    else if 'a' ≤ c ∧ c ≤ 'z' then some (c.toNat - 'a'.toNat + 10)
    else if 'A' ≤ c ∧ c ≤ 'Z' then some (c.toNat - 'A'.toNat + 10)
    else none
  match v with
  | some d => if d < radix then some d else none
  | none => none

/-- Accumulate digit values left to right; `none` on the first non-digit. -/
def parseDigits (radix : Nat) (cs : List Char) : Option Nat :=
  cs.foldl
    (fun acc c =>
      match acc, digitValRadix? radix c with
      | some n, some d => some (n * radix + d)
      | _, _ => none)
    (some 0)

/-- Rust's `usize::from_str_radix` / `u64::from_str_radix` for an unsigned
64-bit integer: optional leading `'+'`, then a non-empty run of digits of
the radix; errors on any other character and on overflow past
`2 ^ 64 - 1`. -/
def fromStrRadix (radix : Nat) (s : String) : Option Nat :=
  let cs :=
    match s.data with
    | '+' :: rest => rest
    | cs => cs
  if cs.isEmpty then none
  else
    match parseDigits radix cs with
    | some n => if n < 2 ^ 64 then some n else none
    | none => none

/-- `parse_file_and_lineno` (`src/traceedb/dbg.rs` lines 237-249 and the
identical copy in `src/traceedb/command.rs`): split on `':'`, demand
exactly two fragments, parse the second as a decimal `u64`. -/
def parseFileAndLineno (s : String) : Except String (String × Nat) :=
  match splitColon s.data [] with
  | [fname, lstr] =>
    match fromStrRadix 10 lstr with
    | some lineno => Except.ok (fname, lineno)
    | none =>
      Except.error "Failed to parse a line number from supplied argument!"
  | _ => Except.error "Failed to parse, please supply in format of file:lineno"

/-- The typed operations produced by `TraceeDbg::prompt_user_cmd`
(`src/traceedb/dbg.rs`); its breakpoint arm carries the resolved address,
as in `Breakpoint(addr)` at dbg.rs line 224. -/
inductive DbgOp
  | viewRegisters
  | step
  | cont
  | quit
  | helpMe
  | readWord (addr : Nat)
  | writeWord (addr val : Nat)
  | breakpoint (addr : Nat)
deriving DecidableEq

/-- `TraceeDbg::prompt_user_cmd` from `src/traceedb/dbg.rs` lines
152-234, minus the terminal I/O: one input line to one operation or error.
The outer `Option` is `none` exactly where the source aborts: the
`.unwrap()` on the first token of an empty line, and a resolution abort
inside `src_line_to_addr`. -/
def dbgPromptUserCmd (symbols : Option (List CompUnit)) (input : String) :
    Option (Except String DbgOp) :=
  match tokenize input with
  | [] => none
  | command :: args =>
    match command with
    | "reg" | "registers" => some (Except.ok DbgOp.viewRegisters)
    | "s" | "step" => some (Except.ok DbgOp.step)
    | "c" | "continue" => some (Except.ok DbgOp.cont)
    | "q" | "quit" => some (Except.ok DbgOp.quit)
    | "h" | "help" => some (Except.ok DbgOp.helpMe)
    | "r" | "read" =>
      match args.head? with
      | none => some (Except.error "Missing the address to read from")
      | some arg =>
        match fromStrRadix 16 arg with
        | some addr => some (Except.ok (DbgOp.readWord addr))
        | none =>
          some (Except.error "Failed to parse: please supply hex value!")
    | "w" | "write" =>
      match args with
      | a :: b :: _ =>
        match fromStrRadix 16 a, fromStrRadix 16 b with
        | some addr, some val => some (Except.ok (DbgOp.writeWord addr val))
        | _, _ =>
          some (Except.error "Failed to parse args for writing word!")
      | _ => some (Except.error "Failed to parse args for writing word!")
    | "b" | "breakpoint" =>
      match symbols with
      | none =>
        some (Except.error "Cannot resolve source lines without debug symbols!")
      | some units =>
        match args.head? with
        | none => some (Except.error "Insufficient arguments for command!")
        | some arg =>
          match parseFileAndLineno arg with
          | Except.error e => some (Except.error e)
          | Except.ok (fname, lno) =>
            match srcLineToAddr units fname lno with
            | none => none
            | some (Except.error _) =>
              some (Except.error "Failed to resolve address!")
            | some (Except.ok addr) =>
              some (Except.ok (DbgOp.breakpoint addr))
    | _ => some (Except.error "Could not recognize command!")

/-- The typed operations produced by the free function `prompt_user_cmd`
in `src/traceedb/command.rs`; its breakpoint arm carries the freshly
created `BrkptRecord`. -/
inductive CmdOp
  | viewRegisters
  | step
  | cont
  | quit
  | helpMe
  | readWord (addr : Nat)
  | writeWord (addr val : Nat)
  | breakpoint (r : BrkptRecord)
deriving DecidableEq

/-- `prompt_user_cmd` from `src/traceedb/command.rs` lines 208-293, minus
the terminal I/O. The outer `Option` is `none` where the source aborts
(the `.unwrap()` on the first token, and a resolution abort). The
breakpoint arm builds `BrkptRecord::new(target_pid, addr)`, peeking the
target memory. -/
def cmdPromptUserCmd (symbols : Option (List CompUnit)) (targetPid : Nat)
    (mem : Nat → Nat) (input : String) : Option (Except String CmdOp) :=
  match tokenize input with
  | [] => none
  | command :: args =>
    match command with
    | "reg" | "registers" => some (Except.ok CmdOp.viewRegisters)
    | "s" | "step" => some (Except.ok CmdOp.step)
    | "c" | "continue" => some (Except.ok CmdOp.cont)
    | "q" | "quit" => some (Except.ok CmdOp.quit)
    | "h" | "help" => some (Except.ok CmdOp.helpMe)
    | "r" | "read" =>
      match args.head? with
      | none => some (Except.error "Missing the address to read from!")
      | some arg =>
        match fromStrRadix 16 arg with
        | some addr => some (Except.ok (CmdOp.readWord addr))
        | none =>
          some (Except.error "Failed to parse address: please supply hex value!")
    | "w" | "write" =>
      match args with
      | a :: b :: _ =>
        match fromStrRadix 16 a, fromStrRadix 16 b with
        | some addr, some val => some (Except.ok (CmdOp.writeWord addr val))
        | _, _ =>
          some (Except.error "Failed to parse args for writing word!")
      | _ => some (Except.error "Insufficient arguments for command!")
    | "b" | "breakpoint" =>
      match symbols with
      | none =>
        some (Except.error "Cannot resolve source lines without debug symbols!")
      | some units =>
        match args.head? with
        | none => some (Except.error "Insufficient arguments for command!")
        | some arg =>
          match parseFileAndLineno arg with
          | Except.error e => some (Except.error e)
          | Except.ok (fname, lno) =>
            match srcLineToAddr units fname lno with
            | none => none
            | some (Except.error _) =>
              some (Except.error "Failed to resolve address!")
            | some (Except.ok addr) =>
              some (Except.ok (CmdOp.breakpoint (brkptNew targetPid mem addr)))
    | _ => some (Except.error "Could not recognize command!")

/-- The signal carried by a `WaitStatus::Stopped`. -/
inductive StopSig
  | sigtrap
  | sigstop
  | sigsegv
  | other (raw : Nat)
deriving DecidableEq

/-- The wait statuses `TraceeDbg::run_debugger` matches on:
stopped-with-signal, exited, any other status, or a failed wait call. -/
inductive WaitSt
  | stopped (s : StopSig)
  | exited (code : Nat)
  | otherStatus (raw : Nat)
  | waitFailed
deriving DecidableEq

/-- What the session does with one wait status. -/
inductive StopOutcome
  | promptUser
  | sessionEnd (reason : String)
deriving DecidableEq

/-- The dispatch on the wait status in `TraceeDbg::run_debugger`
(`src/traceedb/dbg.rs` lines 73-147): SIGTRAP/SIGSTOP stops go to the
command prompt; SIGSEGV stops and ordinary exits end the session with a
printed reason; every other status runs `todo!()` and a failed wait runs
`panic!`, both aborting the whole debugger process, modelled as `none`. -/
def handleStopStatus : WaitSt → Option StopOutcome
  | WaitSt.stopped StopSig.sigtrap => some StopOutcome.promptUser
  | WaitSt.stopped StopSig.sigstop => some StopOutcome.promptUser
  | WaitSt.stopped StopSig.sigsegv =>
    some (StopOutcome.sessionEnd "Target process received SIGSEGV, segfaulted!")
  | WaitSt.exited _ =>
    some (StopOutcome.sessionEnd "The target program finished execution.")
  | WaitSt.stopped (StopSig.other _) => none
  | WaitSt.otherStatus _ => none
  | WaitSt.waitFailed => none

/-- A fixed example word used as target-memory content in concrete
instances below. -/
def w0 : Nat := 0x0123456789ABCDEF

/-- A fixed example memory: every word reads as `w0`. -/
def mem0 : Nat → Nat := fun _ => w0

/-- A fixed example debug-info index: one compilation unit named
`main.c` whose line program maps line 5 to `0x401136`. -/
def exampleUnits : List CompUnit :=
  [CompUnit.mk (some "/home/user") (some "main.c")
    (some [LineRow.mk (some 5) 0x401136, LineRow.mk (some 7) 0x401140])]

/-- The low byte of `patchWord w` is the trap opcode and the remaining
bytes of the 32-bit masked region survive, but every byte above byte 3 of
the result is zero. -/
theorem patchWord_idem (w : Nat) : patchWord (patchWord w) = patchWord w := by
  unfold patchWord
  apply Nat.eq_of_testBit_eq
  intro i
  have hcm : ((0xCC : Nat) &&& 0xFFFFFF00) = 0 := by decide
  have h : ((0xCC : Nat).testBit i && (0xFFFFFF00 : Nat).testBit i) = false := by
    rw [← Nat.testBit_and, hcm]
    exact Nat.zero_testBit i
  simp only [Nat.testBit_or, Nat.testBit_and]
  cases hb : w.testBit i <;>
    cases hm : (0xFFFFFF00 : Nat).testBit i <;>
      cases hc : (0xCC : Nat).testBit i <;> simp_all

/-- C1: the claim says the stop handler looks up the instruction pointer
minus one and, on a hit at breakpoint address `a`, leaves the pointer at
`a` with the original bytes restored. The code instead looks up the
instruction pointer itself: at the failing input (record for
`a = 0x401136`, trap leaving `rip = 0x401137`, patched word installed)
the lookup misses, so the pointer stays at `0x401137` and the trap byte
stays in memory; on a direct key hit at `a` the handler would leave the
pointer at `a - 1`, not `a`; and `BrkptRecord::recover_from_trap` aborts. -/
theorem c1_stop_handler_misses_trap :
    (stopCorrect [(0x401136, FnBrkptRecord.mk 0x401136 w0)] 0x401137
        (memWrite mem0 0x401136 (patchWord w0))).1 = 0x401137 ∧
    (stopCorrect [(0x401136, FnBrkptRecord.mk 0x401136 w0)] 0x401137
        (memWrite mem0 0x401136 (patchWord w0))).2 0x401136 = patchWord w0 ∧
    patchWord w0 ≠ w0 ∧
    (stopCorrect [(0x401136, FnBrkptRecord.mk 0x401136 w0)] 0x401136
        (memWrite mem0 0x401136 (patchWord w0))).1 = 0x401135 ∧
    recoverFromTrap (BrkptRecord.mk 7 0x401136 w0) = none := by
  refine ⟨rfl, rfl, by decide, rfl, rfl⟩

/-- C2: the claim says activation preserves every byte of the original
word except the low byte, which becomes `0xCC`. The code masks with the
32-bit literal `0xFFFFFF00`, so at the failing input
`w = 0x1122334455667788` the patched word is `0x556677CC`: the low byte
is `0xCC` and bytes 1-3 survive, but bytes 4-7 (here `0x44`, `0x33`,
`0x22`, `0x11`) are zeroed rather than preserved. -/
theorem c2_activate_zeroes_high_bytes :
    patchWord 0x1122334455667788 = 0x556677CC ∧
    byteOf (patchWord 0x1122334455667788) 0 = 0xCC ∧
    byteOf (patchWord 0x1122334455667788) 1 = 0x77 ∧
    byteOf 0x1122334455667788 4 = 0x44 ∧
    byteOf (patchWord 0x1122334455667788) 4 = 0 ∧
    byteOf 0x1122334455667788 7 = 0x11 ∧
    byteOf (patchWord 0x1122334455667788) 7 = 0 := by
  decide

/-- C3: the claim says that after a breakpoint command resolves and
activates a trap at an address, a record for that address is present in
the session's table, and that a record exists iff the trap byte is
installed. Evaluating the code at a fresh session: executing the
breakpoint operation for `0x401136` installs the trap byte (low byte of
the patched word is `0xCC`) yet the session's breakpoint table remains
empty, so the trap is installed with no record. -/
theorem c3_activation_leaves_table_empty :
    ((executeBreakpoint (buildSession mem0)
        (brkptNew 42 mem0 0x401136)).1.breakpoints = [] ∧
     (executeBreakpoint (buildSession mem0)
        (brkptNew 42 mem0 0x401136)).1.mem 0x401136 = patchWord w0 ∧
     byteOf ((executeBreakpoint (buildSession mem0)
        (brkptNew 42 mem0 0x401136)).1.mem 0x401136) 0 = 0xCC ∧
     (executeBreakpoint (buildSession mem0)
        (brkptNew 42 mem0 0x401136)).2 = TargetStat.awaitingCommand) := by
  refine ⟨rfl, rfl, by decide, rfl⟩

/-- C4 counterexample: the claim says two sets at the same address leave
exactly one record for it and the second call is an `AlreadySet` no-op.
At the concrete input (fresh session, address `0x401136`): after two set
calls the table holds zero records for the address, and the second call
produced a fresh record whose stored original bytes are the patched word,
not the true original. -/
theorem c4_double_set_counterexample :
    (((setBrkptAt (setBrkptAt (buildSession mem0) 42 0x401136).1
        42 0x401136).1.breakpoints.filter
          (fun q => q.1 == 0x401136)).length = 0 ∧
     (setBrkptAt (setBrkptAt (buildSession mem0) 42 0x401136).1
        42 0x401136).2.originalInsn = patchWord w0 ∧
     patchWord w0 ≠ w0) := by
  refine ⟨rfl, rfl, by decide⟩

/-- C4 amended: calling set at `a` twice creates and activates a fresh
record each time; no record is ever stored in the session table, the
second record captures the patched word as its original bytes, and target
memory is unchanged by the second activation (the patch is idempotent on
memory). -/
theorem c4_amended_double_set (pid a : Nat) (mem : Nat → Nat) :
    ((setBrkptAt (setBrkptAt (buildSession mem) pid a).1
        pid a).1.breakpoints = [] ∧
     (setBrkptAt (setBrkptAt (buildSession mem) pid a).1
        pid a).2.originalInsn = patchWord (mem a) ∧
     (setBrkptAt (setBrkptAt (buildSession mem) pid a).1 pid a).1.mem
       = (setBrkptAt (buildSession mem) pid a).1.mem) := by
  refine ⟨rfl, ?_, ?_⟩
  · simp [setBrkptAt, executeBreakpoint, buildSession, brkptNew, activate,
      memWrite]
  · funext x
    simp only [setBrkptAt, executeBreakpoint, buildSession, brkptNew,
      activate, memWrite]
    by_cases hx : x = a <;> simp [hx, patchWord_idem]

/-- C5: the claim says every input line, including the empty line and a
line of only whitespace, parses to an operation or an error value and
never panics. The code unwraps the first whitespace token: at the failing
inputs `""` and `"   "` there is no token and the unwrap aborts the
process, in both interpreter iterations. -/
theorem c5_empty_line_aborts :
    dbgPromptUserCmd none "" = none ∧
    dbgPromptUserCmd none "   " = none ∧
    cmdPromptUserCmd none 1 mem0 "" = none ∧
    cmdPromptUserCmd none 1 mem0 "   " = none := by
  refine ⟨rfl, rfl, rfl, rfl⟩

/-- C6 counterexample: the claim says `"w 10"` returns an
insufficient-operand error distinct from a non-hex-operand parse error.
In the `dbg.rs` interpreter the one-operand input and the non-hex input
return the same error value, so the two failures are not distinct. -/
theorem c6_write_errors_not_distinct :
    dbgPromptUserCmd none "w 10" =
      some (Except.error "Failed to parse args for writing word!") ∧
    dbgPromptUserCmd none "w zz 10" =
      some (Except.error "Failed to parse args for writing word!") := by
  refine ⟨rfl, rfl⟩

/-- C6 amended: every verb/alias pair produces the listed operation in
both interpreters, `"r zz"` returns a parse error in both, and `"w 10"`
never produces a write; in the `command.rs` interpreter `"w 10"` returns
the insufficient-arguments error, distinct from the non-hex parse error,
while in the `dbg.rs` interpreter `"w 10"` and a non-hex operand return
the same error value. -/
theorem c6_amended_parse_table :
    dbgPromptUserCmd (some exampleUnits) "s" = some (Except.ok DbgOp.step) ∧
    dbgPromptUserCmd (some exampleUnits) "step" =
      some (Except.ok DbgOp.step) ∧
    dbgPromptUserCmd (some exampleUnits) "c" = some (Except.ok DbgOp.cont) ∧
    dbgPromptUserCmd (some exampleUnits) "continue" =
      some (Except.ok DbgOp.cont) ∧
    dbgPromptUserCmd (some exampleUnits) "reg" =
      some (Except.ok DbgOp.viewRegisters) ∧
    dbgPromptUserCmd (some exampleUnits) "registers" =
      some (Except.ok DbgOp.viewRegisters) ∧
    dbgPromptUserCmd (some exampleUnits) "q" = some (Except.ok DbgOp.quit) ∧
    dbgPromptUserCmd (some exampleUnits) "quit" =
      some (Except.ok DbgOp.quit) ∧
    dbgPromptUserCmd (some exampleUnits) "h" =
      some (Except.ok DbgOp.helpMe) ∧
    dbgPromptUserCmd (some exampleUnits) "help" =
      some (Except.ok DbgOp.helpMe) ∧
    dbgPromptUserCmd (some exampleUnits) "r 401136" =
      some (Except.ok (DbgOp.readWord 0x401136)) ∧
    dbgPromptUserCmd (some exampleUnits) "read 401136" =
      some (Except.ok (DbgOp.readWord 0x401136)) ∧
    dbgPromptUserCmd (some exampleUnits) "w 401136 cc" =
      some (Except.ok (DbgOp.writeWord 0x401136 0xCC)) ∧
    dbgPromptUserCmd (some exampleUnits) "write 401136 cc" =
      some (Except.ok (DbgOp.writeWord 0x401136 0xCC)) ∧
    dbgPromptUserCmd (some exampleUnits) "b main.c:5" =
      some (Except.ok (DbgOp.breakpoint 0x401136)) ∧
    dbgPromptUserCmd (some exampleUnits) "breakpoint main.c:5" =
      some (Except.ok (DbgOp.breakpoint 0x401136)) ∧
    dbgPromptUserCmd (some exampleUnits) "trace" =
      some (Except.error "Could not recognize command!") ∧
    cmdPromptUserCmd (some exampleUnits) 42 mem0 "s" =
      some (Except.ok CmdOp.step) ∧
    cmdPromptUserCmd (some exampleUnits) 42 mem0 "step" =
      some (Except.ok CmdOp.step) ∧
    cmdPromptUserCmd (some exampleUnits) 42 mem0 "c" =
      some (Except.ok CmdOp.cont) ∧
    cmdPromptUserCmd (some exampleUnits) 42 mem0 "continue" =
      some (Except.ok CmdOp.cont) ∧
    cmdPromptUserCmd (some exampleUnits) 42 mem0 "reg" =
      some (Except.ok CmdOp.viewRegisters) ∧
    cmdPromptUserCmd (some exampleUnits) 42 mem0 "registers" =
      some (Except.ok CmdOp.viewRegisters) ∧
    cmdPromptUserCmd (some exampleUnits) 42 mem0 "q" =
      some (Except.ok CmdOp.quit) ∧
    cmdPromptUserCmd (some exampleUnits) 42 mem0 "quit" =
      some (Except.ok CmdOp.quit) ∧
    cmdPromptUserCmd (some exampleUnits) 42 mem0 "h" =
      some (Except.ok CmdOp.helpMe) ∧
    cmdPromptUserCmd (some exampleUnits) 42 mem0 "help" =
      some (Except.ok CmdOp.helpMe) ∧
    cmdPromptUserCmd (some exampleUnits) 42 mem0 "r 401136" =
      some (Except.ok (CmdOp.readWord 0x401136)) ∧
    cmdPromptUserCmd (some exampleUnits) 42 mem0 "w 401136 cc" =
      some (Except.ok (CmdOp.writeWord 0x401136 0xCC)) ∧
    cmdPromptUserCmd (some exampleUnits) 42 mem0 "b main.c:5" =
      some (Except.ok (CmdOp.breakpoint
        (BrkptRecord.mk 42 0x401136 w0))) ∧
    cmdPromptUserCmd (some exampleUnits) 42 mem0 "w 10" =
      some (Except.error "Insufficient arguments for command!") ∧
    cmdPromptUserCmd (some exampleUnits) 42 mem0 "w zz 10" =
      some (Except.error "Failed to parse args for writing word!") ∧
    ("Insufficient arguments for command!" : String) ≠
      "Failed to parse args for writing word!" ∧
    dbgPromptUserCmd (some exampleUnits) "w 10" =
      some (Except.error "Failed to parse args for writing word!") ∧
    dbgPromptUserCmd (some exampleUnits) "w zz 10" =
      some (Except.error "Failed to parse args for writing word!") ∧
    dbgPromptUserCmd (some exampleUnits) "r zz" =
      some (Except.error "Failed to parse: please supply hex value!") ∧
    cmdPromptUserCmd (some exampleUnits) 42 mem0 "r zz" =
      some (Except.error "Failed to parse address: please supply hex value!") := by
  refine ⟨rfl, rfl, rfl, rfl, rfl, rfl, rfl, rfl, rfl, rfl, rfl, rfl, rfl,
    rfl, rfl, rfl, rfl, rfl, rfl, rfl, rfl, rfl, rfl, rfl, rfl, rfl, rfl,
    rfl, rfl, rfl, rfl, rfl, by decide, rfl, rfl, rfl, rfl⟩

/-- C7 counterexample: the claim's reading of resolution fails on the
code at two concrete inputs. A unit named `main.c` whose top DIE lacks a
comp-dir attribute is skipped by the code (NotFound) although the spec
wording resolves it; and when the first `main.c` unit has no matching row
the code goes on to a later `main.c` unit and succeeds although the spec
wording returns NotFound. -/
theorem c7_resolve_counterexample :
    srcLineToAddr [CompUnit.mk none (some "main.c")
        (some [LineRow.mk (some 5) 0x1000])] "main.c" 5 =
      some (Except.error ResolveErr.invalidAddressRange) ∧
    resolveSpecWords [CompUnit.mk none (some "main.c")
        (some [LineRow.mk (some 5) 0x1000])] "main.c" 5 = Except.ok 0x1000 ∧
    srcLineToAddr
      [CompUnit.mk (some "/h") (some "main.c") (some []),
       CompUnit.mk (some "/h") (some "main.c")
         (some [LineRow.mk (some 5) 0x2000])] "main.c" 5 =
      some (Except.ok 0x2000) ∧
    resolveSpecWords
      [CompUnit.mk (some "/h") (some "main.c") (some []),
       CompUnit.mk (some "/h") (some "main.c")
         (some [LineRow.mk (some 5) 0x2000])] "main.c" 5 =
      Except.error ResolveErr.invalidAddressRange := by
  refine ⟨rfl, rfl, rfl, rfl⟩

/-- C7 amended: on any index whose units all carry a line program,
resolution scans all units in order, skipping units missing the comp-dir
or name attribute; for each unit whose name equals the filename exactly
it scans rows in order and returns the first row whose line number
equals the requested line exactly, continuing with later units when a
matching unit has no matching row, and returns NotFound only when no
matching unit yields a matching row; no nearest-line fallback. -/
theorem c7_amended_resolve (units : List CompUnit) (f : String) (l : Nat)
    (h : ∀ u ∈ units, u.lineProgram.isSome) :
    srcLineToAddr units f l = some (resolveAmended units f l) := by
  induction units with
  | nil => rfl
  | cons u rest ih =>
    have hu : u.lineProgram.isSome = true := h u (List.mem_cons_self u rest)
    have hrest : ∀ v ∈ rest, v.lineProgram.isSome :=
      fun v hv => h v (List.mem_cons_of_mem u hv)
    obtain ⟨rows, hrows⟩ := Option.isSome_iff_exists.mp hu
    by_cases hc : u.compDir.isSome ∧ u.name = some f
    · simp only [srcLineToAddr, resolveAmended, if_pos hc, hrows,
        Option.getD_some]
      cases hfind : rowsFind rows l with
      | some a => rfl
      | none => simp only [hfind]; exact ih hrest
    · simp only [srcLineToAddr, resolveAmended, if_neg hc]
      exact ih hrest

/-- C7 witness: the amended resolution theorem applied at a concrete
one-unit index mapping `main.c:5` to `0x401136`. -/
theorem c7_amended_resolve_witness :
    srcLineToAddr exampleUnits "main.c" 5 =
      some (resolveAmended exampleUnits "main.c" 5) :=
  c7_amended_resolve exampleUnits "main.c" 5 (by decide)

/-- C8: the claim says every kernel I/O failure while patching or
restoring code bytes surfaces an error and is never silently swallowed.
The `breakpoint.rs` `poke_text` does surface the failure, but the
`function.rs` `poke_text` discards the kernel result and returns success
for every kernel outcome, so at the failing input (kernel reports errno
14, EFAULT) the failure is silently swallowed. -/
theorem c8_poke_failure_swallowed :
    (∀ e : Nat, pokeTextFn (Except.error e) = Except.ok ()) ∧
    (∀ e : Nat, pokeTextBp (Except.error e) =
      Except.error "Failed to send PTRACE_POKETEXT message!") ∧
    pokeTextFn (Except.error 14) = Except.ok () := by
  refine ⟨fun _ => rfl, fun _ => rfl, rfl⟩

/-- C9: the claim says every stop reason among exit, segfault and
unhandled ends the session terminally with the reason reported, without
aborting the debugger process. Exits and segfaults do so, but at the
failing input (a stop with any other signal, or any other wait status)
the catch-all arm aborts the whole debugger process. -/
theorem c9_unhandled_status_aborts :
    handleStopStatus (WaitSt.stopped (StopSig.other 2)) = none ∧
    handleStopStatus (WaitSt.otherStatus 9) = none ∧
    handleStopStatus (WaitSt.stopped StopSig.sigsegv) =
      some (StopOutcome.sessionEnd
        "Target process received SIGSEGV, segfaulted!") ∧
    handleStopStatus (WaitSt.exited 0) =
      some (StopOutcome.sessionEnd
        "The target program finished execution.") := by
  refine ⟨rfl, rfl, rfl, rfl⟩

/-- C10: there is an index, filename and line on which resolution aborts
instead of returning an error: a unit whose recorded name equals the
requested filename but which carries no line-number program makes the
code unwrap a `None`, modelled as the `none` outcome. -/
theorem c10_missing_line_program_aborts :
    srcLineToAddr [CompUnit.mk (some "/h") (some "main.c") none]
      "main.c" 5 = none := rfl
